import Mathlib

set_option maxRecDepth 8000

/-
Verification of the client-side conversation/reconciliation layer of the
YoutubeSummarizer web client.

The definitions below are a shallow embedding of the JavaScript source:
  * `extractAiResponse` embeds the reply-field probing expression of
    `handleSend` in src/frontend/src/routes/chatPage/chatPage.jsx (plain
    chat flow, lines 252-259);
  * `historyGetAll` / `getConversations` embed the listing adapters of
    src/frontend/src/lib/api.js;
  * `handleDeleteChat` / `handleUndo` / `commitTimerFires` /
    `handleDeleteAllChats` embed the soft-delete queue of
    DashboardLayout.jsx;
  * `handleSend` / `initChatPage` embed the turn controller and the
    load-once / auto-send-once guards of chatPage.jsx;
  * `deriveChatTitle` embeds the title rule of `handleCreateChat`;
  * `setThemeManually` embeds the manual theme setter of ThemeContext.jsx.

JavaScript truthiness on optional strings (`undefined` and `""` are falsy,
every other string is truthy) is modelled by `jsTruthyString`.
-/

/-- A conversation summary as kept in the sidebar list (`recentChats`).
Only the identity and title fields matter to the verified logic. -/
structure Chat where
  conversation_id : String
  title : String
deriving DecidableEq, Repr

/-- JavaScript truthiness filter for an optional string appearing in a
`a || b || ...` chain: `undefined` (here `none`) and the empty string are
falsy and contribute nothing; any other string is taken as-is. -/
def jsTruthyString : Option String → Option String
  | some s => if s = "" then none else some s
  | none => none

/-- A backend chat-send payload, restricted to the fields the turn
controller probes: `message`, `response`, `data.message`, `data.response`,
`text`, `content`, plus the two conversation-id fields. -/
structure ChatPayload where
  message : Option String
  response : Option String
  dataMessage : Option String
  dataResponse : Option String
  text : Option String
  content : Option String
  conversation_id : Option String
  dataConversationId : Option String
deriving DecidableEq, Repr

/-- The ordered candidate reply fields probed by `handleSend` in the plain
chat flow (chatPage.jsx lines 252-259), in source order. -/
def candidateFields (p : ChatPayload) : List (Option String) :=
  [p.message, p.response, p.dataMessage, p.dataResponse, p.text, p.content]

/-- The candidate reply values that are JS-truthy, in probe order. -/
def exposedReplies (p : ChatPayload) : List String :=
  (candidateFields p).filterMap jsTruthyString

/-- The literal fallback sentinel of the plain chat flow. -/
def noResponseSentinel : String := "No response received"

/-- Embeds `chatResponse.message || chatResponse.response ||
chatResponse.data?.message || chatResponse.data?.response ||
chatResponse.text || chatResponse.content || "No response received"`:
the first JS-truthy candidate, else the sentinel. -/
def extractAiResponse (p : ChatPayload) : String :=
  (exposedReplies p).headD noResponseSentinel

/-- Embeds the four-candidate probe `chatResponse.message ||
chatResponse.response || chatResponse.data?.message ||
chatResponse.data?.response` used in the document and video flows
(chatPage.jsx lines 192 and 233); it has no literal fallback, so the
result stays optional. -/
def extractAiResponse4 (p : ChatPayload) : Option String :=
  ([p.message, p.response, p.dataMessage, p.dataResponse].filterMap jsTruthyString).head?

/-- Embeds `chatResponse.conversation_id ||
chatResponse.data?.conversation_id || id` (chatPage.jsx lines 261-264). -/
def extractConversationId (p : ChatPayload) (id : String) : String :=
  (((jsTruthyString p.conversation_id).or
      (jsTruthyString p.dataConversationId)).getD id)

theorem jsTruthyString_ne_empty {o : Option String} {s : String}
    (h : jsTruthyString o = some s) : s ≠ "" := by
  match o with
  | none => simp [jsTruthyString] at h
  | some t =>
    by_cases ht : t = "" <;> simp [jsTruthyString, ht] at h
    exact h ▸ ht

theorem mem_exposedReplies_ne_empty {p : ChatPayload} {s : String}
    (h : s ∈ exposedReplies p) : s ≠ "" := by
  rcases List.mem_filterMap.mp h with ⟨o, _, ho⟩
  exact jsTruthyString_ne_empty ho

/-- C1: in the plain chat flow, `handleSend` extracts the reply by probing
the fixed ordered candidate fields and taking the first non-empty match;
a payload exposing exactly one non-empty candidate yields that text no
matter which field carried it, a payload exposing none yields the literal
sentinel "No response received", and the extracted text is never blank. -/
theorem extractAiResponse_reconciles (p : ChatPayload) (s : String) :
    (exposedReplies p = [s] → extractAiResponse p = s) ∧
    (exposedReplies p = [] → extractAiResponse p = noResponseSentinel) ∧
    extractAiResponse p ≠ "" := by
  refine ⟨fun h => by simp [extractAiResponse, h], fun h => by simp [extractAiResponse, h], ?_⟩
  unfold extractAiResponse
  cases hrep : exposedReplies p with
  | nil => simp [noResponseSentinel]
  | cons a tl =>
    have ha : a ∈ exposedReplies p := by rw [hrep]; exact List.mem_cons_self a tl
    simpa using mem_exposedReplies_ne_empty ha

/-- Witness for C1: a payload carrying the reply only under `data.response`
yields that reply verbatim. -/
theorem extractAiResponse_reconciles_witness :
    extractAiResponse ⟨none, none, none, some "hello there", none, none, none, none⟩ =
      "hello there" :=
  (extractAiResponse_reconciles
      ⟨none, none, none, some "hello there", none, none, none, none⟩ "hello there").1
    (by decide)

/-- A failure outcome of the underlying HTTP request, as classified by the
axios response interceptor: optional status code and a message. -/
structure HttpError where
  status : Option Nat
  message : String
deriving DecidableEq, Repr

/-- The shape returned by `api.history.getAll` (lib/api.js lines 460-481). -/
structure HistoryPage where
  success : Bool
  activities : List String
  total : Nat
  page : Nat
  page_size : Nat
deriving DecidableEq, Repr

/-- The shape returned by `api.chat.getConversations` (lib/api.js lines
173-194). -/
structure ConversationsPage where
  success : Bool
  conversations : List Chat
  total : Nat
  page : Nat
  page_size : Nat
deriving DecidableEq, Repr

/-- Embeds `api.history.getAll`: the `try` returns the response body, the
`catch` returns an empty-but-well-formed page instead of rethrowing. The
underlying request outcome is passed in as `request`. -/
def historyGetAll (pageSize : Nat) (request : Except HttpError HistoryPage) :
    Except HttpError HistoryPage :=
  match request with
  | .ok data => .ok data
  | .error _ =>
      .ok { success := true, activities := [], total := 0, page := 1, page_size := pageSize }

/-- Embeds `api.chat.getConversations`: the `catch` returns an empty
conversations page instead of rethrowing. -/
def getConversations (pageSize : Nat) (request : Except HttpError ConversationsPage) :
    Except HttpError ConversationsPage :=
  match request with
  | .ok data => .ok data
  | .error _ =>
      .ok { success := true, conversations := [], total := 0, page := 1, page_size := pageSize }

/-- C6: for every failure outcome of the underlying HTTP request, the
read-only listing adapters return an empty-but-well-formed result instead
of propagating the error: `history.getAll` yields empty `activities` with
`total = 0`, and `chat.getConversations` yields empty `conversations`
with `total = 0`, in both cases as a successful (non-thrown) value. -/
theorem listing_calls_degrade_gracefully (e : HttpError) (pageSize : Nat) :
    (∃ r, historyGetAll pageSize (.error e) = .ok r ∧ r.activities = [] ∧ r.total = 0) ∧
    (∃ r, getConversations pageSize (.error e) = .ok r ∧ r.conversations = [] ∧ r.total = 0) :=
  ⟨⟨_, rfl, rfl, rfl⟩, ⟨_, rfl, rfl, rfl⟩⟩

/-- Embeds the title rule of `handleCreateChat` (DashboardLayout.jsx):
`file ? file.name : prompt.length > 25 ? prompt.slice(0, 25) + "..." :
prompt`. -/
def deriveChatTitle (file : Option String) (prompt : String) : String :=
  match file with
  | some fileName => fileName
  | none => if prompt.length > 25 then prompt.take 25 ++ "..." else prompt

/-- C8: the derived conversation title is the attached file's name when a
file is present; otherwise the prompt itself when it has at most 25
characters, and the first 25 characters followed by "..." when longer. -/
theorem deriveChatTitle_rule (file : Option String) (prompt fileName : String) :
    (file = some fileName → deriveChatTitle file prompt = fileName) ∧
    (file = none → prompt.length ≤ 25 → deriveChatTitle file prompt = prompt) ∧
    (file = none → prompt.length > 25 →
      deriveChatTitle file prompt = prompt.take 25 ++ "...") := by
  refine ⟨fun h => by simp [deriveChatTitle, h], fun h hle => ?_, fun h hgt => ?_⟩
  · simp [deriveChatTitle, h, Nat.not_lt.mpr hle]
  · simp [deriveChatTitle, h, hgt]

/-- Witness for C8: a 30-character prompt with no file is truncated to its
first 25 characters plus an ellipsis. -/
theorem deriveChatTitle_rule_witness :
    deriveChatTitle none "abcdefghijklmnopqrstuvwxyz0123" =
      "abcdefghijklmnopqrstuvwxy" ++ "..." :=
  ((deriveChatTitle_rule none "abcdefghijklmnopqrstuvwxyz0123" "unused").2.2
      rfl (by decide)).trans (by decide)

/-- The theme-relevant state of `ThemeProvider` (ThemeContext.jsx). -/
structure ThemeState where
  theme : String
  isSignedIn : Bool
  isSyncing : Bool
deriving DecidableEq, Repr

/-- A backend preferences update issued through
`api.auth.updatePreferences`. -/
inductive PreferencesCall
  | updatePreferences (theme : String)
deriving DecidableEq, Repr

/-- Embeds `setThemeManually` (ThemeContext.jsx lines 126-149): any
argument other than "light"/"dark" is rejected up front (log and return);
otherwise the theme is set and, when signed in and not already syncing,
one backend preferences update is issued. -/
def setThemeManually (newTheme : String) (st : ThemeState) :
    ThemeState × List PreferencesCall :=
  if newTheme ≠ "light" ∧ newTheme ≠ "dark" then (st, [])
  else
    let st1 := { st with theme := newTheme }
    if st.isSignedIn ∧ st.isSyncing = false then
      (st1, [.updatePreferences newTheme])
    else (st1, [])

/-- C10: for every argument other than the exact strings "light" or
"dark", `setThemeManually` leaves the state unchanged and performs no
backend preferences update; and through this entry point only "light"
and "dark" can ever change the theme or reach
`api.auth.updatePreferences`. -/
theorem setThemeManually_validates (newTheme : String) (st : ThemeState)
    (h : newTheme ≠ "light" ∧ newTheme ≠ "dark") :
    setThemeManually newTheme st = (st, []) ∧
    (∀ (t : String) (st2 : ThemeState) (c : PreferencesCall),
        c ∈ (setThemeManually t st2).2 →
          c = .updatePreferences t ∧ (t = "light" ∨ t = "dark")) ∧
    (∀ (t : String) (st2 : ThemeState),
        (setThemeManually t st2).1.theme ≠ st2.theme → t = "light" ∨ t = "dark") := by
  refine ⟨by simp [setThemeManually, h], fun t st2 c hc => ?_, fun t st2 hth => ?_⟩
  · by_cases hv : t ≠ "light" ∧ t ≠ "dark"
    · simp [setThemeManually, hv] at hc
    · rcases not_and_or.mp hv with hl | hd
      · have hl := not_not.mp hl
        subst hl
        refine ⟨?_, Or.inl rfl⟩
        by_cases hs : st2.isSignedIn ∧ st2.isSyncing = false <;>
          simp [setThemeManually, hs] at hc <;> simp [hc]
      · have hd := not_not.mp hd
        subst hd
        refine ⟨?_, Or.inr rfl⟩
        by_cases hs : st2.isSignedIn ∧ st2.isSyncing = false <;>
          simp [setThemeManually, hs] at hc <;> simp [hc]
  · by_contra hv
    push_neg at hv
    exact hth (by simp [setThemeManually, hv])

/-- Witness for C10: the argument "blue" is rejected, leaving a signed-in
light-theme state untouched with no backend call. -/
theorem setThemeManually_validates_witness :
    setThemeManually "blue" ⟨"light", true, false⟩ = (⟨"light", true, false⟩, []) :=
  (setThemeManually_validates "blue" ⟨"light", true, false⟩ (by decide)).1

/-- The soft-delete-relevant state of `DashboardLayout`: the visible list
`recentChats`, the undo stack `deletedChatStack` (top is the last
element, as in the JS array), and the single pending commit timer held in
`undoTimeoutRef` (the component keeps one timer reference; `none` models
a cleared or already-fired timer). The timer entry records the chat whose
backend delete is scheduled. -/
structure DashState where
  recentChats : List Chat
  deletedChatStack : List Chat
  activeTimer : Option Chat
deriving DecidableEq, Repr

/-- Embeds `handleDeleteChat` (DashboardLayout, src/unnamed/part_001 lines
348-381): look up the chat; if absent do nothing; otherwise remove it
from the visible list, push it on the undo stack, clear any previously
scheduled commit timer (`clearTimeout(undoTimeoutRef.current)`), and
schedule this chat's commit as the new single timer. -/
def handleDeleteChat (chatId : String) (st : DashState) : DashState :=
  match st.recentChats.find? (fun c => c.conversation_id == chatId) with
  | none => st
  | some chatToDelete =>
      { recentChats := st.recentChats.filter (fun c => !(c.conversation_id == chatId)),
        deletedChatStack := st.deletedChatStack ++ [chatToDelete],
        activeTimer := some chatToDelete }

/-- Embeds `handleUndo` (part_001 lines 407-420): if the stack is empty do
nothing; otherwise cancel the pending timer, restore the most recently
deleted chat to the front of the visible list, and pop it off the stack. -/
def handleUndo (st : DashState) : DashState :=
  match st.deletedChatStack.getLast? with
  | none => st
  | some chatToRestore =>
      { recentChats := chatToRestore :: st.recentChats,
        deletedChatStack := st.deletedChatStack.dropLast,
        activeTimer := none }

/-- Embeds the commit timer callback of `handleDeleteChat` (part_001 lines
362-374) firing with outcome `ok`: on backend success the entry is
filtered out of the stack; on failure the chat is reinserted at the front
of the visible list while the stack is left untouched. Either way the
timer has fired and is gone. -/
def commitTimerFires (ok : Bool) (st : DashState) : DashState :=
  match st.activeTimer with
  | none => st
  | some chat =>
      if ok then
        { recentChats := st.recentChats,
          deletedChatStack :=
            st.deletedChatStack.filter (fun c => !(c.conversation_id == chat.conversation_id)),
          activeTimer := none }
      else
        { recentChats := chat :: st.recentChats,
          deletedChatStack := st.deletedChatStack,
          activeTimer := none }

theorem find_of_nodup_mem (l : List Chat) (A : Chat)
    (hnd : (l.map Chat.conversation_id).Nodup) (hA : A ∈ l) :
    l.find? (fun c => c.conversation_id == A.conversation_id) = some A := by
  induction l with
  | nil => cases hA
  | cons c tl ih =>
    rw [List.map_cons, List.nodup_cons] at hnd
    rcases List.mem_cons.mp hA with rfl | hmem
    · exact List.find?_cons_of_pos _ (by simp)
    · have hne : (c.conversation_id == A.conversation_id) = false := by
        refine beq_eq_false_iff_ne.mpr fun he => hnd.1 ?_
        exact he ▸ List.mem_map_of_mem Chat.conversation_id hmem
      rw [List.find?_cons_of_neg _ (by simp [hne])]
      exact ih hnd.2 hmem

/-- C2: deleting A then B and undoing once restores B (not A) to the front
of the store; a second undo, both before any commit timer fires, restores
A as well, leaving the visible order `A :: B :: rest` where `rest` is the
original list with A and B removed. -/
theorem undo_restores_lifo (st : DashState) (A B : Chat)
    (hnd : (st.recentChats.map Chat.conversation_id).Nodup)
    (hA : A ∈ st.recentChats) (hB : B ∈ st.recentChats)
    (hAB : A.conversation_id ≠ B.conversation_id) :
    (handleUndo (handleDeleteChat B.conversation_id
        (handleDeleteChat A.conversation_id st))).recentChats =
      B :: ((st.recentChats.filter
              (fun c => !(c.conversation_id == A.conversation_id))).filter
            (fun c => !(c.conversation_id == B.conversation_id))) ∧
    (handleUndo (handleUndo (handleDeleteChat B.conversation_id
        (handleDeleteChat A.conversation_id st)))).recentChats =
      A :: B :: ((st.recentChats.filter
              (fun c => !(c.conversation_id == A.conversation_id))).filter
            (fun c => !(c.conversation_id == B.conversation_id))) := by
  have hfindA :
      st.recentChats.find? (fun c => c.conversation_id == A.conversation_id) = some A :=
    find_of_nodup_mem st.recentChats A hnd hA
  have h1 : handleDeleteChat A.conversation_id st =
      { recentChats :=
          st.recentChats.filter (fun c => !(c.conversation_id == A.conversation_id)),
        deletedChatStack := st.deletedChatStack ++ [A],
        activeTimer := some A } := by
    unfold handleDeleteChat; rw [hfindA]
  have hnd1 : ((st.recentChats.filter
      (fun c => !(c.conversation_id == A.conversation_id))).map Chat.conversation_id).Nodup :=
    List.Nodup.sublist (List.Sublist.map _ (List.filter_sublist _)) hnd
  have hBmem1 : B ∈ st.recentChats.filter
      (fun c => !(c.conversation_id == A.conversation_id)) := by
    refine List.mem_filter.mpr ⟨hB, ?_⟩
    simp [beq_eq_false_iff_ne.mpr (Ne.symm hAB)]
  have hfindB : (st.recentChats.filter
      (fun c => !(c.conversation_id == A.conversation_id))).find?
        (fun c => c.conversation_id == B.conversation_id) = some B :=
    find_of_nodup_mem _ B hnd1 hBmem1
  have h2 : handleDeleteChat B.conversation_id (handleDeleteChat A.conversation_id st) =
      { recentChats :=
          (st.recentChats.filter
              (fun c => !(c.conversation_id == A.conversation_id))).filter
            (fun c => !(c.conversation_id == B.conversation_id)),
        deletedChatStack := (st.deletedChatStack ++ [A]) ++ [B],
        activeTimer := some B } := by
    rw [h1]; unfold handleDeleteChat
    rw [show ((st.recentChats.filter
        (fun c => !(c.conversation_id == A.conversation_id))).find?
          (fun c => c.conversation_id == B.conversation_id)) = some B from hfindB]
  rw [h2]
  constructor
  · unfold handleUndo
    rw [show ((st.deletedChatStack ++ [A]) ++ [B]).getLast? = some B from
      List.getLast?_concat _]
  · unfold handleUndo
    rw [show ((st.deletedChatStack ++ [A]) ++ [B]).getLast? = some B from
      List.getLast?_concat _]
    simp only [List.dropLast_concat]
    rw [show (st.deletedChatStack ++ [A]).getLast? = some A from List.getLast?_concat _]

/-- Witness for C2: deleting "a" then "b" from a three-chat store and
undoing twice ends with A before B before the untouched C. -/
theorem undo_restores_lifo_witness :
    (handleUndo (handleUndo (handleDeleteChat "b" (handleDeleteChat "a"
        { recentChats := [⟨"a", "A"⟩, ⟨"b", "B"⟩, ⟨"c", "C"⟩],
          deletedChatStack := [], activeTimer := none })))).recentChats =
      ⟨"a", "A"⟩ :: ⟨"b", "B"⟩ :: [⟨"c", "C"⟩] := by
  have h := (undo_restores_lifo
      { recentChats := [⟨"a", "A"⟩, ⟨"b", "B"⟩, ⟨"c", "C"⟩],
        deletedChatStack := [], activeTimer := none }
      ⟨"a", "A"⟩ ⟨"b", "B"⟩ (by decide) (by decide) (by decide) (by decide)).2
  exact h.trans (by decide)

/-- Concrete sample conversation used by counterexamples. -/
def chatA : Chat := { conversation_id := "a", title := "Chat A" }

/-- Second concrete sample conversation used by counterexamples. -/
def chatB : Chat := { conversation_id := "b", title := "Chat B" }

/-- C3 counterexample: with conversations A and B in the store, deleting A
and then B while A's commit timer is still pending leaves only B's commit
scheduled — the single `undoTimeoutRef` was cleared by the second delete,
so A's commit is no longer pending and can never fire, contradicting the
claim that the two timers do not interfere. -/
theorem secondDelete_cancels_first_timer :
    (handleDeleteChat "a"
        { recentChats := [chatA, chatB], deletedChatStack := [],
          activeTimer := none }).activeTimer = some chatA ∧
    (handleDeleteChat "b" (handleDeleteChat "a"
        { recentChats := [chatA, chatB], deletedChatStack := [],
          activeTimer := none })).activeTimer = some chatB ∧
    (handleDeleteChat "b" (handleDeleteChat "a"
        { recentChats := [chatA, chatB], deletedChatStack := [],
          activeTimer := none })).activeTimer ≠ some chatA ∧
    (handleDeleteChat "b" (handleDeleteChat "a"
        { recentChats := [chatA, chatB], deletedChatStack := [],
          activeTimer := none })).deletedChatStack = [chatA, chatB] := by
  decide

/-- C3 (amended): invoking `deleteConversation(B)` while A's commit timer
is pending does push a second independent entry onto the undo stack, but
the component keeps a single timer reference and clears it on each new
deletion, so B's delete cancels A's scheduled commit: afterwards only B's
commit is pending and A's commit never fires on its own schedule. -/
theorem secondDelete_replaces_timer (st : DashState) (A B : Chat) (cidB : String)
    (hA : st.activeTimer = some A)
    (hfind : st.recentChats.find? (fun c => c.conversation_id == cidB) = some B)
    (hne : A ≠ B) :
    (handleDeleteChat cidB st).activeTimer = some B ∧
    (handleDeleteChat cidB st).activeTimer ≠ some A ∧
    (handleDeleteChat cidB st).deletedChatStack = st.deletedChatStack ++ [B] := by
  unfold handleDeleteChat
  rw [hfind]
  exact ⟨rfl, by simp [Ne.symm hne], rfl⟩

/-- Witness for the amended C3: after deleting A, deleting B replaces A's
pending commit with B's. -/
theorem secondDelete_replaces_timer_witness :
    (handleDeleteChat "b"
        { recentChats := [chatB], deletedChatStack := [chatA],
          activeTimer := some chatA }).activeTimer = some chatB :=
  (secondDelete_replaces_timer
      { recentChats := [chatB], deletedChatStack := [chatA], activeTimer := some chatA }
      chatA chatB "b" rfl (by decide) (by decide)).1

/-- One step of the soft-delete queue: a deletion, an undo, or a commit
timer firing with backend success. -/
inductive DashOp
  | deleteChat (chatId : String)
  | undo
  | commitOk
deriving DecidableEq, Repr

/-- Applies one queue step to the layout state. -/
def applyDashOp : DashOp → DashState → DashState
  | .deleteChat cid, st => handleDeleteChat cid st
  | .undo, st => handleUndo st
  | .commitOk, st => commitTimerFires true st

/-- Applies a sequence of queue steps, oldest first. -/
def applyDashOps (ops : List DashOp) (st : DashState) : DashState :=
  ops.foldl (fun s op => applyDashOp op s) st

/-- Well-formedness of the layout state: no conversation id occurs twice
across the visible list and the undo stack together. -/
def DashWF (st : DashState) : Prop :=
  ((st.recentChats ++ st.deletedChatStack).map Chat.conversation_id).Nodup

instance (st : DashState) : Decidable (DashWF st) :=
  inferInstanceAs
    (Decidable (((st.recentChats ++ st.deletedChatStack).map Chat.conversation_id).Nodup))

theorem dashWF_deleteChat (st : DashState) (cid : String) (h : DashWF st) :
    DashWF (handleDeleteChat cid st) := by
  unfold handleDeleteChat
  cases hf : st.recentChats.find? (fun c => c.conversation_id == cid) with
  | none => exact h
  | some c =>
    have hcmem : c ∈ st.recentChats := List.mem_of_find?_eq_some hf
    have hccid : c.conversation_id = cid := by
      have hp := List.find?_some hf
      simpa using hp
    unfold DashWF at h ⊢
    rw [List.map_append] at h
    rcases List.nodup_append.mp h with ⟨h1, h2, hdisj⟩
    rw [List.map_append, List.nodup_append]
    have hcf : c.conversation_id ∈ st.recentChats.map Chat.conversation_id :=
      List.mem_map_of_mem Chat.conversation_id hcmem
    refine ⟨List.Nodup.sublist (List.Sublist.map _ (List.filter_sublist _)) h1, ?_, ?_⟩
    · rw [List.map_append, List.nodup_append]
      refine ⟨h2, List.nodup_singleton _, ?_⟩
      intro x hx hy
      rw [List.map_singleton, List.mem_singleton] at hy
      exact hdisj (hy ▸ hcf) hx
    · intro x hx hy
      rcases List.mem_map.mp hx with ⟨y, hymem, rfl⟩
      have hy2 := List.mem_filter.mp hymem
      have hyne : y.conversation_id ≠ cid := by
        have := hy2.2
        simpa [beq_eq_false_iff_ne] using this
      rw [List.map_append, List.mem_append] at hy
      rcases hy with hy | hy
      · exact hdisj (List.mem_map_of_mem Chat.conversation_id hy2.1) hy
      · rw [List.map_singleton, List.mem_singleton] at hy
        exact hyne (hy.trans hccid)

theorem eq_dropLast_append_of_getLast? {α : Type} (l : List α) (c : α)
    (h : l.getLast? = some c) : l = l.dropLast ++ [c] := by
  induction l with
  | nil => simp [List.getLast?] at h
  | cons x xs ih =>
    cases xs with
    | nil =>
      simp [List.getLast?] at h
      simp [h]
    | cons y ys =>
      rw [List.getLast?_cons_cons] at h
      have h2 : (x :: y :: ys).dropLast ++ [c] = x :: ((y :: ys).dropLast ++ [c]) := rfl
      rw [h2, ← ih h]

theorem dashWF_undo (st : DashState) (h : DashWF st) : DashWF (handleUndo st) := by
  unfold handleUndo
  cases hl : st.deletedChatStack.getLast? with
  | none => exact h
  | some c =>
    have hdecomp := eq_dropLast_append_of_getLast? _ _ hl
    unfold DashWF at h ⊢
    have h2 : ((st.recentChats ++
        (st.deletedChatStack.dropLast ++ [c])).map Chat.conversation_id).Nodup := by
      rw [← hdecomp]; exact h
    have h3 : (((st.recentChats ++ st.deletedChatStack.dropLast) ++ [c]).map
        Chat.conversation_id).Nodup := by
      rw [List.append_assoc]; exact h2
    have hperm : List.Perm
        (((st.recentChats ++ st.deletedChatStack.dropLast) ++ [c]).map Chat.conversation_id)
        ((c :: (st.recentChats ++ st.deletedChatStack.dropLast)).map Chat.conversation_id) :=
      List.Perm.map _ (List.perm_append_singleton c _)
    exact hperm.nodup h3

theorem dashWF_commitOk (st : DashState) (h : DashWF st) :
    DashWF (commitTimerFires true st) := by
  unfold commitTimerFires
  cases ht : st.activeTimer with
  | none => exact h
  | some c =>
    unfold DashWF at h ⊢
    refine List.Nodup.sublist (List.Sublist.map _ ?_) h
    exact List.Sublist.append_left (List.filter_sublist _) _

theorem dashWF_applyDashOps (ops : List DashOp) (st : DashState) (h : DashWF st) :
    DashWF (applyDashOps ops st) := by
  induction ops generalizing st with
  | nil => exact h
  | cons op rest ih =>
    have hstep : DashWF (applyDashOp op st) := by
      cases op with
      | deleteChat cid => exact dashWF_deleteChat st cid h
      | undo => exact dashWF_undo st h
      | commitOk => exact dashWF_commitOk st h
    simpa [applyDashOps] using ih (applyDashOp op st) hstep

/-- C4 counterexample: from a well-formed one-chat store, deleting the chat
and letting its commit timer fire with a backend failure reinserts the
chat into the visible list while leaving it on the pending-deletion
stack, so the same conversation is simultaneously visible and pending —
the claimed invariant fails on the failed-commit path. -/
theorem failedCommit_breaks_disjointness :
    chatA ∈ (commitTimerFires false (handleDeleteChat "a"
        { recentChats := [chatA], deletedChatStack := [],
          activeTimer := none })).recentChats ∧
    chatA ∈ (commitTimerFires false (handleDeleteChat "a"
        { recentChats := [chatA], deletedChatStack := [],
          activeTimer := none })).deletedChatStack := by
  decide

/-- C4 (amended): in every state reachable from a well-formed state by
deletions, undos, and commit settlements that succeed at the backend, no
conversation id is simultaneously in the visible store and on the
pending-deletion stack; a commit that fails at the backend, however,
reinserts the conversation while leaving its stack entry behind and
breaks the invariant. -/
theorem store_stack_disjoint (st : DashState) (ops : List DashOp) (h : DashWF st) :
    ((applyDashOps ops st).recentChats.map Chat.conversation_id).Disjoint
      ((applyDashOps ops st).deletedChatStack.map Chat.conversation_id) := by
  have hwf := dashWF_applyDashOps ops st h
  unfold DashWF at hwf
  rw [List.map_append] at hwf
  exact (List.nodup_append.mp hwf).2.2

/-- Witness for the amended C4: after delete, undo, delete, successful
commit from a two-chat store, the visible ids and pending ids are
disjoint. -/
theorem store_stack_disjoint_witness :
    ((applyDashOps [.deleteChat "a", .undo, .deleteChat "b", .commitOk]
        { recentChats := [chatA, chatB], deletedChatStack := [],
          activeTimer := none }).recentChats.map Chat.conversation_id).Disjoint
      ((applyDashOps [.deleteChat "a", .undo, .deleteChat "b", .commitOk]
          { recentChats := [chatA, chatB], deletedChatStack := [],
            activeTimer := none }).deletedChatStack.map Chat.conversation_id) :=
  store_stack_disjoint
    { recentChats := [chatA, chatB], deletedChatStack := [], activeTimer := none }
    [.deleteChat "a", .undo, .deleteChat "b", .commitOk] (by decide)

/-- Outcome of one run of `handleDeleteAllChats`: the conversation ids
passed to `api.chat.deleteConversation` in order, the resulting visible
store, and which notification was raised. -/
structure DeleteAllResult where
  calls : List String
  store : List Chat
  reportedError : Bool
  reportedSuccess : Bool
deriving DecidableEq, Repr

/-- The sequential delete loop of `handleDeleteAllChats` (part_001 lines
387-401): each conversation's delete is awaited in turn; the first call
for which the backend fails (per the `fails` oracle) throws, ending the
loop. Returns the calls issued (the failing call included) and whether
the loop ran to completion. -/
def deleteAllCalls (fails : String → Bool) : List Chat → List String × Bool
  | [] => ([], true)
  | c :: rest =>
      if fails c.conversation_id then ([c.conversation_id], false)
      else
        let r := deleteAllCalls fails rest
        (c.conversation_id :: r.1, r.2)

/-- Embeds `handleDeleteAllChats`: on full success the store is cleared
and a success toast shown; an exception from any delete jumps to the
`catch`, which only shows an error toast — `setRecentChats` is never
called, so the store keeps every conversation. -/
def handleDeleteAllChats (fails : String → Bool) (recentChats : List Chat) :
    DeleteAllResult :=
  let r := deleteAllCalls fails recentChats
  if r.2 then
    { calls := r.1, store := [], reportedError := false, reportedSuccess := true }
  else
    { calls := r.1, store := recentChats, reportedError := true, reportedSuccess := false }

/-- C5 counterexample: with chats A and B where B's backend delete fails,
the run aborts and reports the error, but the visible store still holds
both A and B — not, as claimed, exactly the conversations not yet
successfully deleted (which would be just B, since A's delete succeeded). -/
theorem deleteAll_store_not_partial :
    (handleDeleteAllChats (fun cid => cid == "b") [chatA, chatB]).calls = ["a", "b"] ∧
    (handleDeleteAllChats (fun cid => cid == "b") [chatA, chatB]).reportedError = true ∧
    (handleDeleteAllChats (fun cid => cid == "b") [chatA, chatB]).store = [chatA, chatB] ∧
    (handleDeleteAllChats (fun cid => cid == "b") [chatA, chatB]).store ≠ [chatB] := by
  decide

theorem deleteAllCalls_firstFailure (fails : String → Bool) (c : Chat) (post : List Chat) :
    ∀ pre : List Chat, (∀ x ∈ pre, fails x.conversation_id = false) →
      fails c.conversation_id = true →
      deleteAllCalls fails (pre ++ c :: post) =
        (pre.map Chat.conversation_id ++ [c.conversation_id], false) := by
  intro pre
  induction pre with
  | nil => intro _ hc; simp [deleteAllCalls, hc]
  | cons x xs ih =>
    intro hpre hc
    have hx : fails x.conversation_id = false := hpre x (List.mem_cons_self x xs)
    have hrest := ih (fun y hy => hpre y (List.mem_cons_of_mem x hy)) hc
    simp [deleteAllCalls, hx, hrest]

/-- C5 (amended): `handleDeleteAllChats` issues delete calls sequentially
one per conversation and, when the k-th delete fails, issues no further
calls, reports the error, and never reports blanket success or clears the
store — but the visible store is left entirely unchanged (it still lists
all conversations, including the k-1 already deleted on the backend),
rather than listing exactly the not-yet-deleted ones. -/
theorem deleteAll_halts_on_failure (fails : String → Bool) (pre post : List Chat)
    (c : Chat) (hpre : ∀ x ∈ pre, fails x.conversation_id = false)
    (hc : fails c.conversation_id = true) :
    (handleDeleteAllChats fails (pre ++ c :: post)).calls =
        pre.map Chat.conversation_id ++ [c.conversation_id] ∧
    (handleDeleteAllChats fails (pre ++ c :: post)).reportedError = true ∧
    (handleDeleteAllChats fails (pre ++ c :: post)).reportedSuccess = false ∧
    (handleDeleteAllChats fails (pre ++ c :: post)).store = pre ++ c :: post := by
  have hcalls := deleteAllCalls_firstFailure fails c post pre hpre hc
  refine ⟨?_, ?_, ?_, ?_⟩ <;> simp [handleDeleteAllChats, hcalls]

/-- Witness for the amended C5: with A succeeding and B failing, exactly
the two calls are issued and the store keeps both conversations. -/
theorem deleteAll_halts_on_failure_witness :
    (handleDeleteAllChats (fun cid => cid == "b") ([chatA] ++ chatB :: [])).calls =
        [chatA].map Chat.conversation_id ++ [chatB.conversation_id] ∧
    (handleDeleteAllChats (fun cid => cid == "b") ([chatA] ++ chatB :: [])).reportedError =
        true ∧
    (handleDeleteAllChats (fun cid => cid == "b") ([chatA] ++ chatB :: [])).reportedSuccess =
        false ∧
    (handleDeleteAllChats (fun cid => cid == "b") ([chatA] ++ chatB :: [])).store =
        [chatA] ++ chatB :: [] :=
  deleteAll_halts_on_failure (fun cid => cid == "b") [chatA] [] chatB
    (by decide) (by decide)

/-- Message roles rendered by the chat page. -/
inductive Role
  | user
  | assistant
deriving DecidableEq, Repr

/-- A chat-page message. `id` models the `crypto.randomUUID()` render key
(freshness is what matters, so ids are drawn from a counter), and
`isThinking` / `isError` are the placeholder and failure flags patched by
`handleSend`. -/
structure Message where
  id : Nat
  role : Role
  text : String
  isThinking : Bool
  isError : Bool
deriving DecidableEq, Repr

/-- The `ChatPage` component state relevant to the turn controller: the
`hasInitialized` ref (the conversation id already loaded), the
`hasAutoSent` ref, the `isSending` flag, the message list, and the
counter supplying fresh message ids. -/
structure ChatPageState where
  hasInitialized : Option String
  hasAutoSent : Bool
  isSending : Bool
  messages : List Message
  nextId : Nat
deriving DecidableEq, Repr

/-- A fresh, never-mounted chat page. -/
def freshChatPage : ChatPageState :=
  { hasInitialized := none, hasAutoSent := false, isSending := false,
    messages := [], nextId := 0 }

/-- An adapter call issued by the turn controller. -/
inductive AdapterCall
  | chatSend (message : String) (conversationId : Option String)
  | documentsUpload (fileName : String)
  | videosUploadYouTube (url : String)
deriving DecidableEq, Repr

/-- The video payload returned by `api.videos.uploadYouTube`. -/
structure VideoPayload where
  title : String
  transcript : String
deriving DecidableEq, Repr

/-- The derived summarization prompt of the video flow (chatPage.jsx line
227): title plus the first 3000 characters of the transcript, with a
continuation marker when truncated. -/
def youtubeSummaryPrompt (v : VideoPayload) : String :=
  "Please provide a comprehensive summary of this YouTube video:\n\n**Title:** " ++
    v.title ++ "\n\n**Transcript:**\n" ++ v.transcript.take 3000 ++
    (if v.transcript.length > 3000 then "\n\n...(transcript continues)" else "")

/-- The environment a turn runs against: the YouTube-URL test and match of
`YOUTUBE_URL_REGEX`, token availability, and each adapter call's outcome
(errors carry the user-visible message derived from
`error.response?.data?.detail || error.message`). -/
structure SendEnv where
  isYouTubeUrl : String → Bool
  youtubeMatch : String → Option String
  tokenOk : Bool
  docUploadResult : Except String Unit
  videoResult : Except String VideoPayload
  chatResult : Except String ChatPayload

/-- Models `String.prototype.trim()`: strip leading and trailing
whitespace. Defined over the character list so it evaluates by kernel
reduction. -/
def jsTrim (s : String) : String :=
  String.mk (((s.data.dropWhile Char.isWhitespace).reverse.dropWhile
      Char.isWhitespace).reverse)

/-- Patches one message by id, as the `setMessages(prev => prev.map(...))`
updates do: text, thinking and error flags change, role and id never. -/
def patchOne (aiMsgId : Nat) (newText : String) (isErr : Bool) (m : Message) : Message :=
  if m.id = aiMsgId then
    { m with text := newText, isThinking := false, isError := isErr }
  else m

/-- The in-place message-list patch keyed by the assistant message id. -/
def patchMessage (aiMsgId : Nat) (newText : String) (isErr : Bool)
    (msgs : List Message) : List Message :=
  msgs.map (patchOne aiMsgId newText isErr)

/-- Embeds `aiResponse || "Empty response"` at the success patch
(chatPage.jsx line 276). -/
def resolveAiText (aiResponse : Option String) : String :=
  match jsTruthyString aiResponse with
  | some s => s
  | none => "Empty response"

/-- Settles the pending turn: on success the assistant placeholder is
patched to the reconciled text, on failure to an error marker; either way
`isSending` drops back to false (the `finally`). -/
def settleTurn (st1 : ChatPageState) (aiMsgId : Nat)
    (outcome : Except String (Option String)) (calls : List AdapterCall) :
    ChatPageState × List AdapterCall :=
  match outcome with
  | .ok aiResponse =>
      ({ st1 with
          messages := patchMessage aiMsgId (resolveAiText aiResponse) false st1.messages,
          isSending := false }, calls)
  | .error e =>
      ({ st1 with
          messages := patchMessage aiMsgId ("❌ Error: " ++ e) true st1.messages,
          isSending := false }, calls)

/-- The dispatch rule of `handleSend` (file → document flow, YouTube link →
video flow, else plain chat), yielding the turn outcome and the adapter
calls issued, including calls made before a failure. -/
def dispatchTurn (env : SendEnv) (id : String) (prompt : String) (file : Option String) :
    Except String (Option String) × List AdapterCall :=
  match file with
  | some f =>
      match env.docUploadResult with
      | .error e => (.error e, [.documentsUpload f])
      | .ok _ =>
          match env.chatResult with
          | .ok p =>
              (.ok (extractAiResponse4 p),
               [.documentsUpload f, .chatSend ("Analyze this document: " ++ f) (some id)])
          | .error e =>
              (.error e,
               [.documentsUpload f, .chatSend ("Analyze this document: " ++ f) (some id)])
  | none =>
      if env.isYouTubeUrl prompt then
        match env.youtubeMatch prompt with
        | none => (.error "Invalid YouTube URL", [])
        | some url =>
            match env.videoResult with
            | .error e => (.error e, [.videosUploadYouTube url])
            | .ok v =>
                match env.chatResult with
                | .ok p =>
                    (.ok (extractAiResponse4 p),
                     [.videosUploadYouTube url,
                      .chatSend (youtubeSummaryPrompt v) (some id)])
                | .error e =>
                    (.error e,
                     [.videosUploadYouTube url,
                      .chatSend (youtubeSummaryPrompt v) (some id)])
      else
        match env.chatResult with
        | .ok p => (.ok (some (extractAiResponse p)), [.chatSend prompt (some id)])
        | .error e => (.error e, [.chatSend prompt (some id)])

/-- Embeds `handleSend` (chatPage.jsx lines 138-326): bail out when a send
is in flight or the trimmed prompt is empty; otherwise append the
resolved user message and the pending "Thinking..." assistant message,
run the dispatched flow (a missing auth token throws before any call),
and settle the placeholder. -/
def handleSend (env : SendEnv) (id : String) (prompt : String) (file : Option String)
    (st : ChatPageState) : ChatPageState × List AdapterCall :=
  if st.isSending || jsTrim prompt == "" then (st, [])
  else
    let userMsg : Message :=
      { id := st.nextId, role := .user, text := prompt,
        isThinking := false, isError := false }
    let aiMsg : Message :=
      { id := st.nextId + 1, role := .assistant, text := "Thinking...",
        isThinking := true, isError := false }
    let st1 := { st with isSending := true,
                         messages := st.messages ++ [userMsg, aiMsg],
                         nextId := st.nextId + 2 }
    let r :=
      if env.tokenOk then dispatchTurn env id prompt file
      else (.error "No authentication token", [])
    settleTurn st1 (st.nextId + 1) r.1 r.2

/-- Embeds `handleSubmit` of NewPrompt.jsx (lines 47-56): the trimmed text
handed to `onSend`, or `none` when blank or a send/load/upload is in
flight. -/
def newPromptSubmit (text : String) (isSending isLoading isUploading : Bool) :
    Option String :=
  if jsTrim text == "" || isSending || isLoading || isUploading then none
  else some (jsTrim text)

/-- C9: for a prompt that is empty or whitespace-only, and likewise while a
send is in flight, `handleSend` is a no-op — the message list is
unchanged and no adapter call (chat send, document upload, or video
ingest) is made; and NewPrompt's submit path never invokes `onSend` for
blank trimmed input. -/
theorem handleSend_blank_or_inflight_noop (env : SendEnv) (id prompt : String)
    (file : Option String) (st : ChatPageState)
    (h : st.isSending = true ∨ jsTrim prompt = "") :
    handleSend env id prompt file st = (st, []) ∧
    (∀ (text : String) (isSending isLoading isUploading : Bool), jsTrim text = "" →
        newPromptSubmit text isSending isLoading isUploading = none) := by
  constructor
  · have hg : (st.isSending || jsTrim prompt == "") = true := by
      rcases h with h | h <;> simp [h]
    simp [handleSend, hg]
  · intro text a b c ht
    simp [newPromptSubmit, ht]

/-- A concrete turn environment used by witnesses: no YouTube detection,
token present, chat responding under `message`. -/
def envSample : SendEnv :=
  { isYouTubeUrl := fun _ => false, youtubeMatch := fun _ => none,
    tokenOk := true, docUploadResult := .ok (),
    videoResult := .error "no video",
    chatResult := .ok ⟨some "fine", none, none, none, none, none, some "c1", none⟩ }

/-- Witness for C9: a whitespace-only prompt leaves a fresh page untouched
and issues no adapter call. -/
theorem handleSend_blank_or_inflight_noop_witness :
    handleSend envSample "c1" "   " none freshChatPage = (freshChatPage, []) :=
  (handleSend_blank_or_inflight_noop envSample "c1" "   " none freshChatPage
      (Or.inr (by decide))).1

theorem patchOne_role (aiMsgId : Nat) (newText : String) (isErr : Bool) (m : Message) :
    (patchOne aiMsgId newText isErr m).role = m.role := by
  unfold patchOne
  split <;> rfl

theorem patchMessage_countP_role (aiMsgId : Nat) (newText : String) (isErr : Bool)
    (msgs : List Message) (r : Role) :
    (patchMessage aiMsgId newText isErr msgs).countP (fun m => m.role == r) =
      msgs.countP (fun m => m.role == r) := by
  unfold patchMessage
  rw [List.countP_map]
  apply List.countP_congr
  intro m _
  simp [Function.comp, patchOne_role]

theorem settleTurn_guards (st1 : ChatPageState) (aiMsgId : Nat)
    (outcome : Except String (Option String)) (calls : List AdapterCall) :
    (settleTurn st1 aiMsgId outcome calls).1.hasInitialized = st1.hasInitialized ∧
    (settleTurn st1 aiMsgId outcome calls).1.hasAutoSent = st1.hasAutoSent := by
  cases outcome <;> exact ⟨rfl, rfl⟩

theorem settleTurn_countP_role (st1 : ChatPageState) (aiMsgId : Nat)
    (outcome : Except String (Option String)) (calls : List AdapterCall) (r : Role) :
    (settleTurn st1 aiMsgId outcome calls).1.messages.countP (fun m => m.role == r) =
      st1.messages.countP (fun m => m.role == r) := by
  cases outcome <;> simp [settleTurn, patchMessage_countP_role]

theorem handleSend_guards (env : SendEnv) (id prompt : String) (file : Option String)
    (st : ChatPageState) :
    (handleSend env id prompt file st).1.hasInitialized = st.hasInitialized ∧
    (handleSend env id prompt file st).1.hasAutoSent = st.hasAutoSent := by
  unfold handleSend
  by_cases hg : (st.isSending || jsTrim prompt == "") = true
  · simp [hg]
  · rw [if_neg hg]
    exact settleTurn_guards _ _ _ _

theorem handleSend_turn_counts (env : SendEnv) (id prompt : String) (file : Option String)
    (st : ChatPageState) (hmsgs : st.messages = [])
    (hg : (st.isSending || jsTrim prompt == "") = false) :
    (handleSend env id prompt file st).1.messages.countP
        (fun m => m.role == Role.user) = 1 ∧
    (handleSend env id prompt file st).1.messages.countP
        (fun m => m.role == Role.assistant) = 1 := by
  unfold handleSend
  rw [if_neg (by simp [hg])]
  constructor <;>
    · rw [settleTurn_countP_role]
      simp [hmsgs]

/-- Outcome of `api.chat.getConversation` during `loadChat`: the formatted
message history on success, a 404 (conversation missing, start fresh), or
any other load failure. -/
inductive LoadOutcome
  | ok (history : List Message)
  | notFound
  | failure
deriving DecidableEq, Repr

/-- Embeds the mount/navigation effect of ChatPage (chatPage.jsx lines
40-135): if `hasInitialized` already records this conversation id the
event is ignored; otherwise the id is recorded first (line 50) and the
load runs. A missing auth token returns early (lines 54-59) without
touching the messages or auto-sending. On a successful load the history
is rendered and — when it is empty, navigation state carries a truthy
first prompt, and `hasAutoSent` is still unset — `hasAutoSent` is raised
and the first prompt is auto-sent through `handleSend`. A load failure
lands in the catch (lines 114-128), which renders an empty list on 404
and otherwise leaves the messages alone; neither catch path auto-sends. -/
def initChatPage (env : SendEnv) (id : String) (firstPrompt : Option String)
    (file : Option String) (load : LoadOutcome) (st : ChatPageState) :
    ChatPageState × List AdapterCall :=
  if st.hasInitialized = some id then (st, [])
  else
    let st0 := { st with hasInitialized := some id }
    if env.tokenOk then
      match load with
      | .ok history =>
          let st1 := { st0 with messages := history }
          match jsTruthyString firstPrompt with
          | some prompt =>
              if history.isEmpty && !st1.hasAutoSent then
                handleSend env id prompt file { st1 with hasAutoSent := true }
              else (st1, [])
          | none => (st1, [])
      | .notFound => ({ st0 with messages := [] }, [])
      | .failure => (st0, [])
    else (st0, [])

/-- Runs `n` duplicate initialization (mount/navigation) events for the
same conversation, concatenating the adapter calls they issue. -/
def initChatPageEvents (env : SendEnv) (id : String) (firstPrompt : Option String)
    (file : Option String) (load : LoadOutcome) :
    Nat → ChatPageState → ChatPageState × List AdapterCall
  | 0, st => (st, [])
  | n + 1, st =>
      let r1 := initChatPage env id firstPrompt file load st
      let r2 := initChatPageEvents env id firstPrompt file load n r1.1
      (r2.1, r1.2 ++ r2.2)

theorem initChatPage_already (env : SendEnv) (id : String) (firstPrompt : Option String)
    (file : Option String) (load : LoadOutcome) (st : ChatPageState)
    (h : st.hasInitialized = some id) :
    initChatPage env id firstPrompt file load st = (st, []) := by
  simp [initChatPage, h]

theorem initChatPageEvents_already (env : SendEnv) (id : String)
    (firstPrompt : Option String) (file : Option String) (load : LoadOutcome)
    (n : Nat) (st : ChatPageState) (h : st.hasInitialized = some id) :
    initChatPageEvents env id firstPrompt file load n st = (st, []) := by
  induction n with
  | zero => rfl
  | succ m ih =>
      simp [initChatPageEvents, initChatPage_already env id firstPrompt file load st h, ih]

/-- The page state right after the first initialization event has recorded
the conversation id and raised `hasAutoSent`, just before the auto-send. -/
def seededPage (id : String) : ChatPageState :=
  { hasInitialized := some id, hasAutoSent := true, isSending := false,
    messages := [], nextId := 0 }

/-- C7: for a freshly created conversation seeded with a (non-blank) first
prompt, whose load finds the auth token and succeeds with no backend
history, any positive number of duplicate initialization events triggers
the auto-send exactly once: the final message list holds exactly one user
message and one assistant turn, not two. -/
theorem auto_send_fires_once (env : SendEnv) (id p : String) (file : Option String)
    (n : Nat) (hn : 1 ≤ n) (hp : jsTrim p ≠ "") (htok : env.tokenOk = true) :
    (initChatPageEvents env id (some p) file (.ok []) n freshChatPage).1.messages.countP
        (fun m => m.role == Role.user) = 1 ∧
    (initChatPageEvents env id (some p) file (.ok []) n freshChatPage).1.messages.countP
        (fun m => m.role == Role.assistant) = 1 := by
  obtain ⟨m, rfl⟩ : ∃ m, n = m + 1 := ⟨n - 1, (Nat.succ_pred_eq_of_pos hn).symm⟩
  have hpne : p ≠ "" := by
    intro he
    exact hp (by simp [he, jsTrim])
  have htruthy : jsTruthyString (some p) = some p := by simp [jsTruthyString, hpne]
  have hfirst : initChatPage env id (some p) file (.ok []) freshChatPage =
      handleSend env id p file (seededPage id) := by
    simp [initChatPage, freshChatPage, htruthy, htok, seededPage]
  have hguard : ((seededPage id).isSending || jsTrim p == "") = false := by
    simp [seededPage, hp]
  have hcounts := handleSend_turn_counts env id p file (seededPage id) rfl hguard
  have hinit : (handleSend env id p file (seededPage id)).1.hasInitialized = some id :=
    (handleSend_guards env id p file (seededPage id)).1
  have hrest := initChatPageEvents_already env id (some p) file (.ok []) m
      (handleSend env id p file (seededPage id)).1 hinit
  simp only [initChatPageEvents, hfirst, hrest]
  exact hcounts

/-- Witness for C7: two duplicate initialization events for a fresh
conversation seeded with "hello" yield exactly one user message and one
assistant message. -/
theorem auto_send_fires_once_witness :
    (initChatPageEvents envSample "c1" (some "hello") none (.ok [])
        2 freshChatPage).1.messages.countP (fun m => m.role == Role.user) = 1 ∧
    (initChatPageEvents envSample "c1" (some "hello") none (.ok [])
        2 freshChatPage).1.messages.countP (fun m => m.role == Role.assistant) = 1 :=
  auto_send_fires_once envSample "c1" "hello" none 2 (by decide) (by decide) rfl
